import Mathlib

/-!
Verification development for the boligportal.dk housing-search pipeline
(`housing_search.py`).  The Python source is shallowly embedded: listing
dictionaries become structures with `Option`-valued fields (a `none` field
models a key that is absent from the dictionary or bound to Python `None`),
machine numbers become `Nat` (all values of interest are small non-negative
integers; Python floats produced by the pipeline are integer-valued), and
code that can raise is modelled with `Except`-valued step functions.
-/

/-- `HousingCriteria` (src lines 22-33): structured housing search criteria
with the same defaults as the Python dataclass. -/
structure HousingCriteria where
  location : String
  max_price : Nat
  min_bedrooms : Nat
  property_type : String := "all"
  min_size_m2 : Option Nat := none
  max_size_m2 : Option Nat := none
  furnished : Option Bool := none
  immediate_availability : Option Bool := none
  pets_allowed : Option Bool := none
deriving DecidableEq

/-- A listing record as built by `_process_housing_results` (src lines 237-245).
Every field is optional because the Python value is a dictionary: `none` models
a missing key or a `None` value, mirroring what `dict.get` can observe. -/
structure Listing where
  title : Option String
  price_dkk : Option Nat
  location : Option String
  size_m2 : Option Nat
  bedrooms : Option Nat
  property_type : Option String
  listing_url : Option String
deriving DecidableEq

/-- One crawled page fragment: extracted text plus outbound links
(the shape of one element of `crawl_status` consumed at src lines 208-212). -/
structure PageFragment where
  text : String
  links : List String
deriving DecidableEq

/-- `_matches_criteria` (src lines 259-277).  Python evaluates
`all([price, bedrooms, location])`, a truthiness test: `None`, `0`, `0.0`
and `""` are all falsy, so a zero price, a zero bedroom count or an empty
location string is rejected exactly like a missing field.  The `except`
branch of the Python function cannot fire on well-typed inputs; it is
modelled separately by `matchGuard` for the exception-containment analysis. -/
def matchesCriteria (listing : Listing) (criteria : HousingCriteria) : Bool :=
  match listing.price_dkk, listing.bedrooms, listing.location with
  | some price, some bedrooms, some location =>
    if price = 0 || bedrooms = 0 || location = "" then false
    else if criteria.max_price < price then false
    else if bedrooms < criteria.min_bedrooms then false
    else true
  | _, _, _ => false

/-- Boolean test that `p` is a prefix of `l` (plain character comparison). -/
def isPre : List Char → List Char → Bool
  | [], _ => true
  | _ :: _, [] => false
  | a :: as, b :: bs => a == b && isPre as bs

/-- Boolean substring test on character lists, scanning start positions left
to right; together with `strContains` it models the Python `in` operator on
strings. -/
def listContains (p : List Char) : List Char → Bool
  | [] => p.isEmpty
  | c :: cs => isPre p (c :: cs) || listContains p cs

/-- Python `p in s` for strings. -/
def strContains (p s : String) : Bool := listContains p.data s.data

/-- Python `str(x)` for a value that may be `None`: `None` prints as the
literal text `None` inside an f-string. -/
def pyStr : Option String → String
  | none => "None"
  | some s => s

/-- Python `sep.join(parts)`. -/
def pyJoin (sep : String) : List String → String
  | [] => ""
  | [s] => s
  | s :: t => s ++ sep ++ pyJoin sep t

/-- The numeric value of a list of decimal digits, most significant first;
models Python int()/float() on a digits-only string (all numbers produced by
the pipeline are integer-valued). -/
def digitsToNat (ds : List Char) : Nat :=
  ds.foldl (fun n c => n * 10 + (c.toNat - 48)) 0

/-- `self.base_url` (src line 43). -/
def base_url : String := "https://www.boligportal.dk/en"

/-- The location normalization in `construct_search_url` (src line 162):
Python `location.lower().replace(" ", "-")`, modelled character-wise
(ASCII lowering; the single-character replace is a map). -/
def urlLocation (loc : String) : String :=
  String.mk ((loc.data.map Char.toLower).map (fun ch => if ch = ' ' then '-' else ch))

/-- The path portion of the search URL (src lines 164-166). -/
def search_path (c : HousingCriteria) : String :=
  base_url ++ "/rental-properties/" ++ urlLocation c.location
    ++ "/" ++ Nat.repr c.min_bedrooms ++ "-rooms"

/-- The query parameters accumulated by `construct_search_url`
(src lines 169-174).  `max_monthly_rent` is appended unconditionally;
`housing_type` only when the property type differs from `"all"`;
`min_size_m2` only when it is truthy in Python (present and nonzero). -/
def search_params (c : HousingCriteria) : List String :=
  ["max_monthly_rent=" ++ Nat.repr c.max_price]
  ++ (if c.property_type ≠ "all" then ["housing_type=" ++ c.property_type] else [])
  ++ (match c.min_size_m2 with
      | some n => if n ≠ 0 then ["min_size_m2=" ++ Nat.repr n] else []
      | none => [])

/-- The final combination step of `construct_search_url` (src lines 176-178):
Python `if params: url += "/?" + "&".join(params)`. -/
def attach_params (path : String) (params : List String) : String :=
  if params.isEmpty then path else path ++ "/?" ++ pyJoin "&" params

/-- `construct_search_url` (src lines 159-180). -/
def construct_search_url (c : HousingCriteria) : String :=
  attach_params (search_path c) (search_params c)

/-- Maximal run of whitespace dropped; `\s` is modelled by
`Char.isWhitespace` (space, tab, carriage return, newline), which covers
every whitespace character the crawled text can realistically contain. -/
def dropWs (l : List Char) : List Char := l.dropWhile Char.isWhitespace

/-- After group 1 of the price pattern, the remainder must match
`\s*(?:DKK|kr\.)`. -/
def priceTail (l : List Char) : Bool :=
  isPre "DKK".data (dropWs l) || isPre "kr.".data (dropWs l)

/-- Greedy `(?:,\d3)*` of the price pattern: maximal run of
comma-plus-three-digit groups.  Greedy matching without backtracking is
faithful here because everything that can follow a group in the pattern
(a dot, whitespace, `DKK`, `kr.`) fails on a leading comma, so giving a
group back can never rescue a failed match. -/
def commaGroups : List Char → List Char × List Char
  | ',' :: a :: b :: c :: rest =>
    if a.isDigit && b.isDigit && c.isDigit then
      let p := commaGroups rest
      (',' :: a :: b :: c :: p.1, p.2)
    else ([], ',' :: a :: b :: c :: rest)
  | l => ([], l)

/-- The price pattern `(\d+(?:,\d3)*(?:\.\d2)?)\s*(?:DKK|kr\.)`
(src line 218) anchored at the start of `l`; returns the text of group 1 on
success.  `\d+` and `\s*` are safely greedy (no later pattern element can
consume a digit or reject after giving whitespace back); the optional
fractional group is the one point that needs backtracking, so both the
with-group and without-group continuations are tried in order. -/
def matchPriceAt (l : List Char) : Option (List Char) :=
  let ds := l.takeWhile Char.isDigit
  let r1 := l.dropWhile Char.isDigit
  if ds.isEmpty then none
  else
    let p := commaGroups r1
    match p.2 with
    | '.' :: a :: b :: r3 =>
      if a.isDigit && b.isDigit && priceTail r3 then some (ds ++ p.1 ++ ['.', a, b])
      else if priceTail ('.' :: a :: b :: r3) then some (ds ++ p.1)
      else none
    | r2 => if priceTail r2 then some (ds ++ p.1) else none

/-- The room pattern `(\d+)\s*(?:room|rm|bedroom|værelser)` with IGNORECASE
(src line 219), anchored at the start of `l`; case folding is modelled by
lowering the candidate text before the alternation of literal suffixes. -/
def matchRoomsAt (l : List Char) : Option (List Char) :=
  let ds := l.takeWhile Char.isDigit
  if ds.isEmpty then none
  else
    let r := (dropWs (l.dropWhile Char.isDigit)).map Char.toLower
    if isPre "room".data r || isPre "rm".data r
        || isPre "bedroom".data r || isPre "værelser".data r
    then some ds else none

/-- The size pattern `(\d+)\s*m²` (src line 220) anchored at the start. -/
def matchSizeAt (l : List Char) : Option (List Char) :=
  let ds := l.takeWhile Char.isDigit
  if ds.isEmpty then none
  else if isPre "m²".data (dropWs (l.dropWhile Char.isDigit))
  then some ds else none

/-- Python `re.search`: try the anchored matcher at every start position from
the left and return the first success.  (The empty suffix is not tried: every
pattern in the source begins with `\d+` and cannot match the empty string.) -/
def searchFirst {α : Type} (m : List Char → Option α) : List Char → Option α
  | [] => none
  | c :: cs =>
    match m (c :: cs) with
    | some r => some r
    | none => searchFirst m cs

/-- Python `text.split("\n")[0]`. -/
def firstLine (s : String) : String :=
  String.mk (s.data.takeWhile (fun c => c ≠ '\n'))

/-- The per-fragment extraction step of `_process_housing_results`
(src lines 210-248): skip fragments with empty text, extract price, rooms and
size with the three patterns, take the first link containing
`/rental-properties/`, and build the listing record.  The stored
`listing_url` is the raw link: the Python source only prefixes `base_url`
onto a relative link after the dictionary has been built (src lines 247-248),
assigning the prefixed string to a local variable that is never read again,
so the prefix never reaches the stored record. -/
def extractListing (criteria : HousingCriteria) (item : PageFragment) : Option Listing :=
  if item.text = "" then none
  else
    let chars := item.text.data
    let price := (searchFirst matchPriceAt chars).map
      (fun g => digitsToNat (g.filter (fun ch => ch != ',' && ch != '.')))
    let rooms := (searchFirst matchRoomsAt chars).map digitsToNat
    let size := (searchFirst matchSizeAt chars).map digitsToNat
    let url := item.links.find? (fun link => strContains "/rental-properties/" link)
    some { title := some (firstLine item.text)
           price_dkk := price
           location := some criteria.location
           size_m2 := size
           bedrooms := rooms
           property_type := some "apartment"
           listing_url := url }

/-- `_process_housing_results` (src lines 203-257): fold over the crawled
fragments in order, keeping each extracted listing that matches the
criteria. -/
def process_housing_results (criteria : HousingCriteria)
    (crawl : List PageFragment) : List Listing :=
  crawl.foldl
    (fun acc item =>
      match extractListing criteria item with
      | none => acc
      | some l => if matchesCriteria l criteria then acc ++ [l] else acc)
    []

/-- The exception handler wrapped around the body of `_matches_criteria`
(src lines 275-277): a raised exception is converted to a non-match. -/
def matchGuard : Except String Bool → Bool
  | .ok b => b
  | .error _ => false

/-- One iteration of the `_process_housing_results` loop with the fallible
steps made explicit: `extractE` is the try-block of src lines 209-248 (an
exception skips the fragment via the handler at src lines 253-255, an empty
text skips it via `continue`), and `matchE` is the body of
`_matches_criteria`, guarded by its own handler. -/
def processStepE (extractE : PageFragment → Except String (Option Listing))
    (matchE : Listing → Except String Bool)
    (acc : List Listing) (item : PageFragment) : List Listing :=
  match extractE item with
  | .error _ => acc
  | .ok none => acc
  | .ok (some l) => if matchGuard (matchE l) then acc ++ [l] else acc

/-- `_process_housing_results` with explicit fallible steps; instantiating
the steps with the total embedded functions recovers
`process_housing_results`. -/
def process_housing_resultsE
    (extractE : PageFragment → Except String (Option Listing))
    (matchE : Listing → Except String Bool)
    (crawl : List PageFragment) : List Listing :=
  crawl.foldl (processStepE extractE matchE) []

/-- Thousands-separator insertion on a reversed digit list: after every three
digits (counted from the least significant end) a comma is inserted. -/
def commaRev : List Char → List Char
  | a :: b :: c :: d :: rest => a :: b :: c :: ',' :: commaRev (d :: rest)
  | l => l

/-- Python `format(n, ",.0f")` for the integer-valued prices of the
pipeline: decimal digits with `,` as thousands separator and no decimals. -/
def formatThousands (n : Nat) : String :=
  String.mk (((Nat.repr n).data.reverse |> commaRev).reverse)

/-- One numbered block of `_construct_response` (src lines 287-296).
`listing.get` with a default only falls back when the key is absent, and the
`if listing.get(...)` guards are truthiness tests, so zero numbers and empty
strings suppress their line.  Python prints the float `size_m2` with a
trailing `.0` and the float price with no decimals but thousand separators. -/
def listingBlock (i : Nat) (l : Listing) : String :=
  Nat.repr i ++ ". " ++ (l.title.getD "Unlisted Property") ++ "\n"
  ++ (match l.price_dkk with
      | some p => if p ≠ 0 then "   Price: " ++ formatThousands p ++ " DKK/month\n" else ""
      | none => "")
  ++ (match l.size_m2 with
      | some s => if s ≠ 0 then "   Size: " ++ Nat.repr s ++ ".0 m²\n" else ""
      | none => "")
  ++ (match l.bedrooms with
      | some b => if b ≠ 0 then "   Rooms: " ++ Nat.repr b ++ "\n" else ""
      | none => "")
  ++ (match l.listing_url with
      | some u => if u ≠ "" then "   Link: " ++ u ++ "\n" else ""
      | none => "")
  ++ "\n"

/-- `_construct_response` (src lines 279-298): the empty case embeds the last
resolved URL (`str(None)` when no URL was ever resolved); the non-empty case
is a fold appending one block per listing with a counter starting at 1,
mirroring `enumerate(listings, 1)`. -/
def construct_response (last_url : Option String) (listings : List Listing) : String :=
  if listings.isEmpty then
    "No available properties found matching your criteria. You can check for new listings at:\n"
      ++ pyStr last_url
  else
    (listings.foldl
      (fun acc l => (acc.1 ++ listingBlock acc.2 l, acc.2 + 1))
      ("Found " ++ Nat.repr listings.length ++ " matching properties:\n\n", 1)).1

/-- The numbered blocks of the response, starting at number `k`, in input
order: the specification-side description of the non-empty formatter
output. -/
def numberedBlocks : Nat → List Listing → String
  | _, [] => ""
  | k, l :: ls => listingBlock k l ++ numberedBlocks (k + 1) ls

/-- The mutable fields of `HousingSearchAgent` touched by a search
(src lines 44-45). -/
structure AgentState where
  last_criteria : Option HousingCriteria
  last_url : Option String
deriving DecidableEq

/-- The state set up by `__init__` (src lines 44-45): both fields `None`. -/
def initState : AgentState := { last_criteria := none, last_url := none }

/-- The result dictionary of `_execute_search` (src lines 139-157): the
success dictionary carries a `listings` key, the error dictionary does not
(`none` models the absent key, read back through `.get("listings", [])`). -/
structure SearchResult where
  status : String
  listings : Option (List Listing)
deriving DecidableEq

/-- `_execute_search` (src lines 126-157) with the external crawl call as an
`Except` parameter: the URL is constructed and stored in `last_url` before
the crawl, and a crawl failure is caught and converted into an error
dictionary rather than propagated. -/
def execute_search (st : AgentState)
    (crawlResult : Except String (List PageFragment))
    (criteria : HousingCriteria) : AgentState × SearchResult :=
  let st1 : AgentState := { st with last_url := some (construct_search_url criteria) }
  match crawlResult with
  | .ok data =>
    (st1, { status := "success",
            listings := some (process_housing_results criteria data) })
  | .error _ => (st1, { status := "error", listings := none })

/-- `search_housing` (src lines 70-85) with the two external collaborators
(query parsing via the language model, crawling) as `Except` parameters.
A parse failure is caught by the top-level handler, which reports the
previous `last_url` (initially `None`); on success the criteria are stored,
the search runs, and the listings (or the `.get("listings", [])` default on
an error dictionary) are formatted. -/
def search_housing (st : AgentState)
    (parseResult : Except String HousingCriteria)
    (crawlResult : Except String (List PageFragment)) : AgentState × String :=
  match parseResult with
  | .error _ =>
    (st, "Sorry, I encountered an error. You can try searching directly at: "
          ++ pyStr st.last_url)
  | .ok criteria =>
    let st1 : AgentState := { st with last_criteria := some criteria }
    let r := execute_search st1 crawlResult criteria
    (r.1, construct_response r.1.last_url (r.2.listings.getD []))

/-- The fragment of the worked extraction example (claim C1). -/
def c1Fragment : PageFragment :=
  { text := "Nice flat\n12,500 DKK\n3 room apartment\n70 m²",
    links := ["/rental-properties/copenhagen/123"] }

/-- The criteria under which the C1 fragment is extracted. -/
def c1Criteria : HousingCriteria :=
  { location := "copenhagen", max_price := 19000, min_bedrooms := 2 }

/-- Listing used by the concrete counterexample for claim C6: its title is
the empty string. -/
def c6Listing : Listing :=
  { title := some "", price_dkk := some 12500, location := some "copenhagen",
    size_m2 := some 70, bedrooms := some 3, property_type := some "apartment",
    listing_url := some "https://www.boligportal.dk/en/rental-properties/copenhagen/123" }

/-- Fragment whose extraction fails, for the C5 witness. -/
def w5Frag1 : PageFragment := { text := "boom", links := [] }

/-- Fragment whose extraction succeeds, for the C5 witness. -/
def w5Frag2 : PageFragment := { text := "fine", links := [] }

/-- Listing produced by the C5 witness extraction. -/
def w5Listing : Listing :=
  { title := some "t", price_dkk := some 1, location := some "c",
    size_m2 := none, bedrooms := some 1, property_type := some "apartment",
    listing_url := none }

/-- Extraction step for the C5 witness: raises on `w5Frag1`, succeeds
otherwise. -/
def w5Extract : PageFragment → Except String (Option Listing) :=
  fun f => if f.text = "boom" then .error "bad fragment" else .ok (some w5Listing)

/-- Matching step for the C5 witness: always raises. -/
def w5Match : Listing → Except String Bool := fun _ => .error "bad comparison"

/-- Criteria used by the C2 concrete counterexample. -/
def c2Criteria : HousingCriteria :=
  { location := "copenhagen", max_price := 19000, min_bedrooms := 0 }

/-- Listing used by the concrete counterexample for claim C2: every field the
matcher consults is set, the price is below the ceiling and the bedroom count
meets the minimum, yet the bedroom count is `0` and hence falsy in Python. -/
def c2Listing : Listing :=
  { title := some "Studio", price_dkk := some 5000, location := some "copenhagen",
    size_m2 := none, bedrooms := some 0, property_type := some "apartment",
    listing_url := none }

/-- C2 counterexample: a listing whose price, bedrooms and location are all
set, whose price is within the ceiling and whose bedroom count meets the
minimum, is nevertheless rejected, because `all([price, bedrooms, location])`
treats the bedroom count `0` as falsy.  This refutes the claim that such a
listing is always accepted. -/
theorem matchesCriteria_rejects_zero_bedrooms :
    c2Listing.price_dkk.isSome = true
    ∧ c2Listing.bedrooms.isSome = true
    ∧ c2Listing.location.isSome = true
    ∧ c2Listing.price_dkk = some 5000
    ∧ 5000 ≤ c2Criteria.max_price
    ∧ c2Listing.bedrooms = some 0
    ∧ c2Criteria.min_bedrooms ≤ 0
    ∧ matchesCriteria c2Listing c2Criteria = false := by
  decide

/-- C2 (amended): for every Criteria and every Listing whose price, bedrooms
and location are set and truthy (nonzero price, nonzero bedroom count,
non-empty location), the matcher accepts exactly when the price is at most
`max_price` and the bedroom count is at least `min_bedrooms`; in particular
it rejects when the price exceeds the ceiling and rejects when the bedroom
count is below the minimum. -/
theorem matchesCriteria_truthy_fields (criteria : HousingCriteria) (l : Listing)
    (p b : Nat) (loc : String)
    (hp : l.price_dkk = some p) (hb : l.bedrooms = some b)
    (hloc : l.location = some loc)
    (hp0 : p ≠ 0) (hb0 : b ≠ 0) (hloc0 : loc ≠ "") :
    (matchesCriteria l criteria = true
      ↔ (p ≤ criteria.max_price ∧ criteria.min_bedrooms ≤ b)) := by
  simp only [matchesCriteria, hp, hb, hloc]
  simp [hp0, hb0, hloc0]

/-- Witness for the amended C2 theorem at a concrete boundary input:
price equal to the ceiling and bedrooms equal to the minimum are accepted. -/
theorem matchesCriteria_truthy_fields_witness :
    matchesCriteria
      { title := some "Flat", price_dkk := some 19000,
        location := some "copenhagen", size_m2 := none, bedrooms := some 2,
        property_type := some "apartment", listing_url := none }
      { location := "copenhagen", max_price := 19000, min_bedrooms := 2 } = true := by
  rw [matchesCriteria_truthy_fields
      { location := "copenhagen", max_price := 19000, min_bedrooms := 2 }
      _ 19000 2 "copenhagen" rfl rfl rfl
      (by decide) (by decide) (by decide)]
  decide

/-- C3: for every Criteria, a Listing whose price, bedrooms or location field
is missing is rejected (missing data fails closed). -/
theorem matchesCriteria_missing_field_rejects
    (criteria : HousingCriteria) (l : Listing)
    (h : l.price_dkk = none ∨ l.bedrooms = none ∨ l.location = none) :
    matchesCriteria l criteria = false := by
  cases hp : l.price_dkk <;> cases hb : l.bedrooms <;> cases hl : l.location <;>
    simp_all [matchesCriteria]

/-- Witness for C3: a listing with no price is rejected. -/
theorem matchesCriteria_missing_field_rejects_witness :
    matchesCriteria
      { title := some "Flat", price_dkk := none, location := some "copenhagen",
        size_m2 := none, bedrooms := some 3, property_type := some "apartment",
        listing_url := none }
      { location := "copenhagen", max_price := 19000, min_bedrooms := 2 } = false :=
  matchesCriteria_missing_field_rejects
    { location := "copenhagen", max_price := 19000, min_bedrooms := 2 }
    _ (Or.inl rfl)

/-- C8: matching reads only `max_price` and `min_bedrooms` from the criteria,
so two criteria agreeing on `max_price`, `min_bedrooms` and `location` but
differing arbitrarily in `property_type` and the optional fields classify
every listing identically. -/
theorem matchesCriteria_ignores_optional_fields (l : Listing)
    (c1 c2 : HousingCriteria)
    (hmax : c1.max_price = c2.max_price)
    (hmin : c1.min_bedrooms = c2.min_bedrooms)
    (_hloc : c1.location = c2.location) :
    matchesCriteria l c1 = matchesCriteria l c2 := by
  simp only [matchesCriteria, hmax, hmin]

/-- Witness for C8: two criteria that differ in every optional field and in
`property_type` classify a concrete listing identically. -/
theorem matchesCriteria_ignores_optional_fields_witness :
    matchesCriteria
      { title := some "Flat", price_dkk := some 18000,
        location := some "copenhagen", size_m2 := some 70, bedrooms := some 3,
        property_type := some "apartment", listing_url := none }
      { location := "copenhagen", max_price := 19000, min_bedrooms := 2 }
    = matchesCriteria
      { title := some "Flat", price_dkk := some 18000,
        location := some "copenhagen", size_m2 := some 70, bedrooms := some 3,
        property_type := some "apartment", listing_url := none }
      { location := "copenhagen", max_price := 19000, min_bedrooms := 2,
        property_type := "house", min_size_m2 := some 50,
        max_size_m2 := some 120, furnished := some true,
        immediate_availability := some false, pets_allowed := some true } :=
  matchesCriteria_ignores_optional_fields _ _ _ rfl rfl rfl

theorem strExt (a b : String) (h : a.data = b.data) : a = b := by
  cases a; cases b; exact congrArg String.mk h

theorem isPre_iff (p l : List Char) : isPre p l = true ↔ ∃ t, l = p ++ t := by
  induction p generalizing l with
  | nil => simp [isPre]
  | cons a as ih =>
    cases l with
    | nil => simp [isPre]
    | cons b bs =>
      simp only [isPre, Bool.and_eq_true, beq_iff_eq, ih, List.cons_append]
      constructor
      · rintro ⟨h1, t, h2⟩
        exact ⟨t, by rw [h1, h2]⟩
      · rintro ⟨t, h⟩
        injection h with h1 h2
        exact ⟨h1.symm, t, h2⟩

theorem listContains_iff (p l : List Char) :
    listContains p l = true ↔ ∃ a b, l = a ++ (p ++ b) := by
  induction l with
  | nil =>
    simp only [listContains]
    constructor
    · intro h
      exact ⟨[], [], by simp [List.isEmpty_iff.mp h]⟩
    · rintro ⟨a, b, h⟩
      have h2 := h.symm
      simp only [List.append_eq_nil] at h2
      simp [List.isEmpty_iff, h2.2.1]
  | cons c cs ih =>
    simp only [listContains, Bool.or_eq_true, isPre_iff, ih]
    constructor
    · rintro (⟨t, h⟩ | ⟨a, b, h⟩)
      · exact ⟨[], t, by simpa using h⟩
      · exact ⟨c :: a, b, by rw [h]; rfl⟩
    · rintro ⟨a, b, h⟩
      cases a with
      | nil => exact Or.inl ⟨b, by simpa using h⟩
      | cons x xs =>
        rw [List.cons_append] at h
        injection h with h1 h2
        exact Or.inr ⟨xs, b, h2⟩

theorem listContains_self_append (p b : List Char) :
    listContains p (p ++ b) = true :=
  (listContains_iff p (p ++ b)).mpr ⟨[], b, rfl⟩

theorem listContains_self (p : List Char) : listContains p p = true := by
  have := listContains_self_append p []
  simpa using this

theorem listContains_append_right (p a b : List Char)
    (h : listContains p b = true) : listContains p (a ++ b) = true := by
  rcases (listContains_iff p b).mp h with ⟨x, y, hxy⟩
  exact (listContains_iff _ _).mpr
    ⟨a ++ x, y, by rw [hxy, List.append_assoc]⟩

theorem listContains_append_left (p a b : List Char)
    (h : listContains p a = true) : listContains p (a ++ b) = true := by
  rcases (listContains_iff p a).mp h with ⟨x, y, hxy⟩
  exact (listContains_iff _ _).mpr
    ⟨x, y ++ b, by rw [hxy]; simp [List.append_assoc]⟩

theorem strContains_append_right (p a b : String)
    (h : strContains p b = true) : strContains p (a ++ b) = true := by
  unfold strContains
  rw [String.data_append]
  exact listContains_append_right _ _ _ h

theorem strContains_append_left (p a b : String)
    (h : strContains p a = true) : strContains p (a ++ b) = true := by
  unfold strContains
  rw [String.data_append]
  exact listContains_append_left _ _ _ h

theorem strContains_self (p : String) : strContains p p = true :=
  listContains_self p.data

theorem pyJoin_cons (sep p : String) (t : List String) :
    pyJoin sep (p :: t)
      = p ++ (if t.isEmpty then "" else sep ++ pyJoin sep t) := by
  cases t with
  | nil => simp [pyJoin, String.append_empty]
  | cons q r => simp [pyJoin, String.append_assoc]

theorem search_params_cons (c : HousingCriteria) :
    ∃ t, search_params c
      = ("max_monthly_rent=" ++ Nat.repr c.max_price) :: t :=
  ⟨_, rfl⟩

theorem construct_search_url_eq (c : HousingCriteria) :
    construct_search_url c
      = search_path c ++ "/?" ++ pyJoin "&" (search_params c) := rfl

/-- C4: for every valid Criteria, the search URL contains the
hyphenated lower-cased location after the `/rental-properties/` segment,
contains the `min_bedrooms`-rooms segment, and contains
`max_monthly_rent=` followed by exactly the configured maximum price
(the next character, if any, starts the next parameter with `&`). -/
theorem construct_search_url_contains_criteria (c : HousingCriteria)
    (_hmax : 0 < c.max_price) :
    strContains ("/rental-properties/" ++ urlLocation c.location)
        (construct_search_url c) = true
    ∧ strContains (Nat.repr c.min_bedrooms ++ "-rooms")
        (construct_search_url c) = true
    ∧ ∃ pre post : String,
        construct_search_url c
          = pre ++ ("max_monthly_rent=" ++ Nat.repr c.max_price) ++ post
        ∧ (post = "" ∨ ∃ t, post = "&" ++ t) := by
  obtain ⟨tail, htail⟩ := search_params_cons c
  refine ⟨?_, ?_, ?_⟩
  · unfold strContains
    apply (listContains_iff _ _).mpr
    refine ⟨base_url.data,
      ("/" ++ Nat.repr c.min_bedrooms ++ "-rooms" ++ "/?"
        ++ pyJoin "&" (search_params c)).data, ?_⟩
    rw [construct_search_url_eq]
    simp [search_path, String.data_append, List.append_assoc]
  · unfold strContains
    apply (listContains_iff _ _).mpr
    refine ⟨(base_url ++ "/rental-properties/" ++ urlLocation c.location
        ++ "/").data,
      ("/?" ++ pyJoin "&" (search_params c)).data, ?_⟩
    rw [construct_search_url_eq]
    simp [search_path, String.data_append, List.append_assoc]
  · refine ⟨search_path c ++ "/?",
      (if tail.isEmpty then "" else "&" ++ pyJoin "&" tail), ?_, ?_⟩
    · rw [construct_search_url_eq, htail, pyJoin_cons]
      apply strExt
      simp [String.data_append, List.append_assoc]
    · cases h : tail.isEmpty with
      | true => simp
      | false => simp

/-- Witness for C4 at a concrete criteria value with a two-word location. -/
theorem construct_search_url_contains_criteria_witness :
    strContains ("/rental-properties/" ++ urlLocation "new york")
        (construct_search_url
          { location := "new york", max_price := 19000, min_bedrooms := 2 }) = true
    ∧ strContains (Nat.repr 2 ++ "-rooms")
        (construct_search_url
          { location := "new york", max_price := 19000, min_bedrooms := 2 }) = true
    ∧ ∃ pre post : String,
        construct_search_url
            { location := "new york", max_price := 19000, min_bedrooms := 2 }
          = pre ++ ("max_monthly_rent=" ++ Nat.repr 19000) ++ post
        ∧ (post = "" ∨ ∃ t, post = "&" ++ t) :=
  construct_search_url_contains_criteria
    { location := "new york", max_price := 19000, min_bedrooms := 2 } (by decide)

/-- C7: for every Criteria, the parameter-attachment step of the URL
builder appends nothing when no parameters were added, and otherwise
appends exactly one query string, prefixed by `?`, holding the parameters
joined with `&`, with the first parameter immediately after the `?`; the
built URL is exactly this step applied to the path and the accumulated
parameters. -/
theorem attach_params_query_string (c : HousingCriteria)
    (params : List String) :
    (params = [] → attach_params (search_path c) params = search_path c)
    ∧ (params ≠ [] → attach_params (search_path c) params
        = search_path c ++ "/?" ++ pyJoin "&" params)
    ∧ (∀ p t, params = p :: t → ∃ rest : String,
        attach_params (search_path c) params
          = search_path c ++ "/?" ++ (p ++ rest))
    ∧ construct_search_url c
        = attach_params (search_path c) (search_params c) := by
  refine ⟨?_, ?_, ?_, rfl⟩
  · intro h
    rw [h]
    rfl
  · intro h
    cases params with
    | nil => exact absurd rfl h
    | cons p t => rfl
  · rintro p t rfl
    refine ⟨(if t.isEmpty then "" else "&" ++ pyJoin "&" t), ?_⟩
    show search_path c ++ "/?" ++ pyJoin "&" (p :: t) = _
    rw [pyJoin_cons]

/-- Witness for C7: the empty and singleton parameter lists at a concrete
criteria value. -/
theorem attach_params_query_string_witness :
    attach_params (search_path c1Criteria) [] = search_path c1Criteria
    ∧ attach_params (search_path c1Criteria) ["max_monthly_rent=19000"]
        = search_path c1Criteria ++ "/?"
            ++ pyJoin "&" ["max_monthly_rent=19000"] :=
  ⟨(attach_params_query_string c1Criteria []).1 rfl,
   (attach_params_query_string c1Criteria ["max_monthly_rent=19000"]).2.1
     (List.cons_ne_nil _ _)⟩

/-- C1: on the worked example fragment, extraction yields price 12500,
bedrooms 3, size 70 and title `Nice flat`, but the stored listing URL is
the raw relative link, not the base URL concatenated with it: the source
builds the listing dictionary first and only afterwards assigns the
prefixed URL to a local variable that is never used again, so the claimed
prefixing never reaches the stored listing. -/
theorem extractListing_worked_example_url_not_prefixed :
    extractListing c1Criteria c1Fragment = some
      { title := some "Nice flat", price_dkk := some 12500,
        location := some "copenhagen", size_m2 := some 70,
        bedrooms := some 3, property_type := some "apartment",
        listing_url := some "/rental-properties/copenhagen/123" }
    ∧ (some "/rental-properties/copenhagen/123" : Option String)
        ≠ some (base_url ++ "/rental-properties/copenhagen/123") :=
  ⟨by decide, by decide⟩

theorem process_housing_results_eq_fallible (criteria : HousingCriteria)
    (crawl : List PageFragment) :
    process_housing_results criteria crawl
      = process_housing_resultsE
          (fun item => .ok (extractListing criteria item))
          (fun l => .ok (matchesCriteria l criteria)) crawl := by
  unfold process_housing_results process_housing_resultsE
  apply List.foldl_ext
  intro acc item _
  cases hx : extractListing criteria item with
  | none => simp [processStepE, hx]
  | some l => simp [processStepE, hx, matchGuard]

theorem foldl_filterMap_step (criteria : HousingCriteria)
    (crawl : List PageFragment) :
    ∀ acc : List Listing,
      crawl.foldl
        (fun acc item =>
          match extractListing criteria item with
          | none => acc
          | some l => if matchesCriteria l criteria then acc ++ [l] else acc)
        acc
      = acc ++ crawl.filterMap (fun item =>
          match extractListing criteria item with
          | none => none
          | some l => if matchesCriteria l criteria then some l else none) := by
  induction crawl with
  | nil =>
    intro acc
    simp
  | cons i is ih =>
    intro acc
    rw [List.foldl_cons, List.filterMap_cons]
    cases hx : extractListing criteria i with
    | none =>
      simp only [hx]
      rw [ih]
    | some l =>
      cases hm : matchesCriteria l criteria with
      | false =>
        simp only [hx, hm, Bool.false_eq_true, if_false]
        rw [ih]
      | true =>
        simp only [hx, hm, if_true]
        rw [ih, List.append_assoc]
        rfl

theorem processStepE_extract_error
    (extractE : PageFragment → Except String (Option Listing))
    (matchE : Listing → Except String Bool)
    (item : PageFragment) (e : String) (h : extractE item = .error e)
    (acc : List Listing) :
    processStepE extractE matchE acc item = acc := by
  simp [processStepE, h]

theorem processStepE_match_error
    (extractE : PageFragment → Except String (Option Listing))
    (matchE : Listing → Except String Bool)
    (item : PageFragment) (l : Listing) (e : String)
    (h1 : extractE item = .ok (some l)) (h2 : matchE l = .error e)
    (acc : List Listing) :
    processStepE extractE matchE acc item = acc := by
  simp [processStepE, h1, h2, matchGuard]

/-- C5: in the result-processing loop, a fragment whose extraction raises
is dropped and the remaining fragments are processed as if it were absent,
and a listing whose criteria matching raises is treated as a non-match and
likewise contributes nothing, while everything else is processed
unchanged; neither failure aborts the fold over the batch. -/
theorem process_failure_containment
    (extractE : PageFragment → Except String (Option Listing))
    (matchE : Listing → Except String Bool)
    (pre post : List PageFragment) (a b : PageFragment) (l : Listing)
    (e1 e2 : String)
    (ha : extractE a = .error e1)
    (hb : extractE b = .ok (some l)) (hm : matchE l = .error e2) :
    process_housing_resultsE extractE matchE (pre ++ a :: post)
      = process_housing_resultsE extractE matchE (pre ++ post)
    ∧ process_housing_resultsE extractE matchE (pre ++ b :: post)
      = process_housing_resultsE extractE matchE (pre ++ post) := by
  unfold process_housing_resultsE
  constructor
  · rw [List.foldl_append, List.foldl_append, List.foldl_cons,
      processStepE_extract_error extractE matchE a e1 ha]
  · rw [List.foldl_append, List.foldl_append, List.foldl_cons,
      processStepE_match_error extractE matchE b l e2 hb hm]

/-- Witness for C5 at concrete fragments and steps: the failing fragment
and the failing match each disappear from the result without disturbing
the rest of the batch. -/
theorem process_failure_containment_witness :
    process_housing_resultsE w5Extract w5Match ([] ++ w5Frag1 :: [w5Frag2])
      = process_housing_resultsE w5Extract w5Match ([] ++ [w5Frag2])
    ∧ process_housing_resultsE w5Extract w5Match ([] ++ w5Frag2 :: [w5Frag2])
      = process_housing_resultsE w5Extract w5Match ([] ++ [w5Frag2]) :=
  process_failure_containment w5Extract w5Match [] [w5Frag2]
    w5Frag1 w5Frag2 w5Listing "bad fragment" "bad comparison" rfl rfl rfl

theorem numberedBlocks_append (k : Nat) (xs ys : List Listing) :
    numberedBlocks k (xs ++ ys)
      = numberedBlocks k xs ++ numberedBlocks (k + xs.length) ys := by
  induction xs generalizing k with
  | nil => simp [numberedBlocks, String.empty_append]
  | cons x xs ih =>
    rw [List.cons_append]
    show listingBlock k x ++ numberedBlocks (k + 1) (xs ++ ys) = _
    rw [ih, ← String.append_assoc]
    show _ = (listingBlock k x ++ numberedBlocks (k + 1) xs)
      ++ numberedBlocks (k + (xs.length + 1)) ys
    rw [show k + (xs.length + 1) = k + 1 + xs.length by omega]

theorem foldl_blocks (ls : List Listing) :
    ∀ (s : String) (k : Nat),
      (ls.foldl (fun acc l => (acc.1 ++ listingBlock acc.2 l, acc.2 + 1))
        (s, k)).1 = s ++ numberedBlocks k ls := by
  induction ls with
  | nil =>
    intro s k
    simp [numberedBlocks, String.append_empty]
  | cons l ls ih =>
    intro s k
    rw [List.foldl_cons]
    show (ls.foldl _ (s ++ listingBlock k l, k + 1)).1 = _
    rw [ih, String.append_assoc]
    rfl

theorem construct_response_nonempty (u : Option String) (ls : List Listing)
    (h : ls ≠ []) :
    construct_response u ls
      = "Found " ++ Nat.repr ls.length ++ " matching properties:\n\n"
        ++ numberedBlocks 1 ls := by
  unfold construct_response
  rw [if_neg (by simp [List.isEmpty_iff, h]), foldl_blocks]

/-- C10: result processing is exactly an order-preserving filterMap over
the crawled fragments (each accepted listing appears in crawl order), and
on every non-empty listing sequence the formatter output is the count
header followed by the blocks numbered consecutively from 1 in input
order. -/
theorem process_and_format_preserve_order (criteria : HousingCriteria)
    (crawl : List PageFragment) (u : Option String)
    (listings : List Listing) (h : listings ≠ []) :
    process_housing_results criteria crawl
      = crawl.filterMap (fun item =>
          match extractListing criteria item with
          | none => none
          | some l => if matchesCriteria l criteria then some l else none)
    ∧ construct_response u listings
      = "Found " ++ Nat.repr listings.length ++ " matching properties:\n\n"
        ++ numberedBlocks 1 listings := by
  constructor
  · unfold process_housing_results
    have := foldl_filterMap_step criteria crawl []
    simpa using this
  · exact construct_response_nonempty u listings h

/-- Witness for C10: the formatter equation at a concrete singleton
listing sequence. -/
theorem process_and_format_preserve_order_witness :
    construct_response (some "url") [c6Listing]
      = "Found " ++ Nat.repr 1 ++ " matching properties:\n\n"
        ++ numberedBlocks 1 [c6Listing] :=
  (process_and_format_preserve_order c1Criteria [] (some "url") [c6Listing]
    (List.cons_ne_nil _ _)).2

/-- C6 counterexample: for a listing whose title is the empty string, the
rendered response does not contain the placeholder `Unlisted Property`;
the numbered block simply shows the empty title.  Python
`dict.get("title", default)` falls back only when the key is absent, and
the extractor always stores a title key, so an empty title is rendered
as-is. -/
theorem construct_response_empty_title_renders_empty :
    c6Listing.title = some ""
    ∧ strContains "Unlisted Property"
        (construct_response (some "u") [c6Listing]) = false
    ∧ strContains "1. \n" (construct_response (some "u") [c6Listing]) = true :=
  ⟨rfl, by decide, by decide⟩

/-- C6 (amended): in every non-empty listing sequence, a listing whose
title field is absent is rendered with the placeholder
`Unlisted Property` in its numbered block; a listing whose title is the
empty string is rendered with the empty title instead. -/
theorem construct_response_missing_title_placeholder
    (u : Option String) (pre post : List Listing) (l : Listing)
    (h : l.title = none) :
    strContains "Unlisted Property"
      (construct_response u (pre ++ l :: post)) = true := by
  rw [construct_response_nonempty u _ (by simp)]
  apply strContains_append_right
  rw [numberedBlocks_append]
  apply strContains_append_right
  show strContains "Unlisted Property"
    (listingBlock (1 + pre.length) l
      ++ numberedBlocks (1 + pre.length + 1) post) = true
  apply strContains_append_left
  unfold listingBlock
  rw [h, Option.getD_none]
  apply strContains_append_left
  apply strContains_append_left
  apply strContains_append_left
  apply strContains_append_left
  apply strContains_append_left
  apply strContains_append_left
  apply strContains_append_right
  exact strContains_self _

/-- Witness for the amended C6 theorem at a concrete listing without a
title field. -/
theorem construct_response_missing_title_placeholder_witness :
    strContains "Unlisted Property"
      (construct_response (some "u")
        ([] ++ ({ title := none, price_dkk := some 12500,
                  location := some "copenhagen", size_m2 := none,
                  bedrooms := some 3, property_type := some "apartment",
                  listing_url := none } : Listing) :: [])) = true :=
  construct_response_missing_title_placeholder (some "u") [] [] _ rfl

/-- C9: when criteria parsing fails, the top-level handler reports the
`last_url` stored by the previous search and leaves the agent state
untouched (no URL is derived from the current query); in the initial
state, where `last_url` is still `None`, the error string therefore
contains the literal text `None`. -/
theorem search_housing_parse_failure_reports_previous_url
    (st : AgentState) (crawlResult : Except String (List PageFragment))
    (e : String) :
    (search_housing st (.error e) crawlResult).2
      = "Sorry, I encountered an error. You can try searching directly at: "
          ++ pyStr st.last_url
    ∧ (search_housing st (.error e) crawlResult).1 = st
    ∧ (st.last_url = none →
        strContains "None"
          (search_housing st (.error e) crawlResult).2 = true) := by
  refine ⟨rfl, rfl, ?_⟩
  intro h
  show strContains "None"
    ("Sorry, I encountered an error. You can try searching directly at: "
      ++ pyStr st.last_url) = true
  rw [h]
  apply strContains_append_right
  exact strContains_self _

/-- Witness for C9 in the initial agent state: the error string contains
the text `None`. -/
theorem search_housing_parse_failure_reports_previous_url_witness :
    strContains "None"
      (search_housing initState (.error "parse failure") (.ok [])).2 = true :=
  (search_housing_parse_failure_reports_previous_url initState (.ok [])
    "parse failure").2.2 rfl
